import Mathlib

/-!
Shallow embedding of `src/lambda_function.py` (a scheduled URL health-check
monitor) and verification of the specification claims about it.

The Python module reads a list of URLs from an S3 configuration object,
probes each URL, and keeps a per-URL "down flag" object in a flags bucket:
an unreachable URL with no flag gets a flag created plus an SNS alert, a
reachable URL with a flag gets the flag deleted plus an SNS recovery
message.  External collaborators (network, S3, SNS, STS) are modelled as
explicit outcome parameters, and the observable collaborator calls are
collected into an effect trace.
-/

namespace PingLambda

/-- Outcome of the single HTTP request made by `ping_url` (lines 98-103):
either `urlopen` returns a response with a status code, raises
`urllib.error.HTTPError` carrying a code, or raises some other exception. -/
inductive ProbeOutcome where
  | success (code : Int)
  | httpError (code : Int) (msg : String)
  | otherError (msg : String)

/-- The dictionary returned by `ping_url` (keys `is_up`, `status_code`,
`error`). -/
structure Status where
  is_up : Bool
  status_code : Option Int
  error : Option String
deriving DecidableEq

/-- Outcome of the `head_object` call inside `check_flag_exists`
(line 135): the object exists, S3 raises a not-found client error, or the
store fails in some other way.  Every non-`found` outcome is an exception
in Python. -/
inductive StoreResult where
  | found
  | notFound
  | storeError (msg : String)

/-- Whether an SNS publish is the down alert of `send_notification` or the
recovery message of `send_recovery_notification`. -/
inductive NotifyKind where
  | down
  | recovery
deriving DecidableEq

/-- The JSON body written by `create_flag` (lines 147-150). -/
structure FlagBody where
  timestamp : Int
  status : String
deriving DecidableEq

/-- An observable collaborator call made by the handler: the S3 calls
against the flags bucket and the SNS publishes.  An effect is recorded
when the call is issued, whether or not it succeeds. -/
inductive Effect where
  | headObject (bucket key : String)
  | putObject (bucket key : String) (body : FlagBody)
  | deleteObject (bucket key : String)
  | publish (kind : NotifyKind) (topicArn subject message : String)
deriving DecidableEq

/-- One element of the `results` list built by `lambda_handler`
(lines 69-73): the url, the probe status and the pre-existing flag state. -/
structure Record where
  url : String
  status : Status
  flag_exists : Bool
deriving DecidableEq

/-- A parsed Python/JSON value, as produced by `json.loads` (line 36). -/
inductive PyVal where
  | str (s : String)
  | int (n : Int)
  | boolean (b : Bool)
  | null
  | list (xs : List PyVal)
  | dict (kvs : List (String × PyVal))

/-- Whether a `PyVal` is a dictionary (only dictionaries answer the `.get`
attribute access on line 37). -/
def PyVal.isDict : PyVal → Bool
  | PyVal.dict _ => true
  | _ => false

/-- Digit run of Python `int(s)` parsing: decimal digits, with single
underscores allowed between digits.  `prevDigit` records whether the
previous character was a digit; the run must end on a digit. -/
def pyDigitsAux : List Char → Nat → Bool → Option Nat
  | [], acc, true => Option.some acc
  | [], _, false => Option.none
  | c :: cs, acc, prevDigit =>
    if c.isDigit then pyDigitsAux cs (acc * 10 + (c.toNat - 48)) true
    else if c = '_' && prevDigit then pyDigitsAux cs acc false
    else Option.none

/-- The ASCII whitespace characters Python strips around an `int()`
literal. -/
def isPyWs (c : Char) : Bool :=
  c = ' ' || c = '\t' || c = '\n' || c = '\r' || c = '\x0b' || c = '\x0c'

/-- Strip surrounding whitespace from a character list. -/
def pyStrip (cs : List Char) : List Char :=
  ((cs.dropWhile isPyWs).reverse.dropWhile isPyWs).reverse

/-- Python `int(s)` for base 10: strip surrounding whitespace, allow an
optional sign, then require a nonempty digit run; any other shape raises
`ValueError`, modelled as `Option.none`.  Used by `create_flag`, which
calls `int(...)` on the `date` HTTP header of an STS response (line 148). -/
def pyToInt? (s : String) : Option Int :=
  match pyStrip s.data with
  | '+' :: cs => (pyDigitsAux cs 0 false).map Int.ofNat
  | '-' :: cs => (pyDigitsAux cs 0 false).map (fun n => -(n : Int))
  | cs => (pyDigitsAux cs 0 false).map Int.ofNat

/-- Python `str.replace`: replace every non-overlapping occurrence of
`pat`, scanning left to right.  The fuel starts at the length of the
string, which is enough since every step consumes at least one character
(patterns are never empty here). -/
def pyReplaceAux (pat repl : List Char) : Nat → List Char → List Char
  | 0, s => s
  | _, [] => []
  | fuel + 1, c :: cs =>
    if !pat.isEmpty && pat.isPrefixOf (c :: cs) then
      repl ++ pyReplaceAux pat repl fuel (List.drop pat.length (c :: cs))
    else
      c :: pyReplaceAux pat repl fuel cs

/-- Python `str.replace` on `String`. -/
def pyReplace (pat repl s : String) : String :=
  String.mk (pyReplaceAux pat.data repl.data s.data.length s.data)

/-- `get_domain_from_url` (lines 123-128): strip `http://` and `https://`
(Python `replace` removes every occurrence), take the part before the
first `/` (Python `split('/')[0]`), and replace `:` with `_`. -/
def get_domain_from_url (url : String) : String :=
  let stripped := pyReplace "https://" "" (pyReplace "http://" "" url)
  String.mk (((stripped.data.takeWhile (fun c => c ≠ '/'))).map
    (fun c => if c = ':' then '_' else c))

/-- URL normalisation inside `ping_url` (lines 95-96): URLs without a
scheme get `https://` prefixed. -/
def normalizeUrl (url : String) : String :=
  if url.startsWith "http://" || url.startsWith "https://" then url
  else "https://" ++ url

/-- `ping_url` (lines 90-121).  `net` gives the outcome of the single
request issued against the normalised URL.  Every branch, including both
`except` clauses, returns a status dictionary: the function is total and
never propagates an exception. -/
def ping_url (net : String → ProbeOutcome) (url : String) : Status :=
  match net (normalizeUrl url) with
  | ProbeOutcome.success code =>
    ⟨decide (200 ≤ code ∧ code < 300), Option.some code, Option.none⟩
  | ProbeOutcome.httpError code msg =>
    ⟨false, Option.some code, Option.some msg⟩
  | ProbeOutcome.otherError msg =>
    ⟨false, Option.none, Option.some msg⟩

/-- `check_flag_exists` (lines 130-138): `head_object` succeeding means
`True`; the bare `except:` turns every exception, the S3 not-found error
and any other storage failure alike, into `False`. -/
def check_flag_exists : StoreResult → Bool
  | StoreResult.found => true
  | StoreResult.notFound => false
  | StoreResult.storeError _ => false

/-- The collaborator outcomes for evaluating one target: the network
behaviour, the `head_object` outcome, the `date` header of the STS
`get_caller_identity` response used for the flag timestamp (line 148), and
the outcomes of the `put_object`, `delete_object` and `publish` calls. -/
structure TargetEnv where
  net : String → ProbeOutcome
  headResult : StoreResult
  stsDateHeader : String
  putResult : Except String Unit
  deleteResult : Except String Unit
  publishResult : Except String Unit

/-- `create_flag` (lines 140-151): the body is built first, so
`int(...)` on the STS `date` header raises before `put_object` is ever
called; when it succeeds, `put_object` is called with the body
`{timestamp, status: "down"}` and may itself fail. -/
def create_flag (env : TargetEnv) (bucket key : String) :
    List Effect × Except String Unit :=
  match pyToInt? env.stsDateHeader with
  | Option.none =>
    ([], Except.error
      ("invalid literal for int() with base 10: " ++ env.stsDateHeader))
  | Option.some t =>
    ([Effect.putObject bucket key ⟨t, "down"⟩], env.putResult)

/-- `delete_flag` (lines 153-157). -/
def delete_flag (env : TargetEnv) (bucket key : String) :
    List Effect × Except String Unit :=
  ([Effect.deleteObject bucket key], env.deleteResult)

/-- The `status_code if status_code else 'N/A'` interpolation on
line 167: both `None` and `0` are falsy in Python. -/
def statusCodeText : Option Int → String
  | Option.none => "N/A"
  | Option.some c => if c == 0 then "N/A" else toString c

/-- Python renders `None` as the string `None` inside an f-string. -/
def errorText : Option String → String
  | Option.none => "None"
  | Option.some s => s

/-- `send_notification` (lines 159-177). -/
def send_notification (env : TargetEnv) (topicArn url : String)
    (status_code : Option Int) (error : Option String) :
    List Effect × Except String Unit :=
  let subject := "ALERT: " ++ url ++ " is DOWN"
  let message := "\n    The URL " ++ url ++ " is currently DOWN.\n    \n    Status Code: "
    ++ statusCodeText status_code ++ "\n    Error: " ++ errorText error
    ++ "\n    \n    This is an automated message from the URL Ping Service.\n    "
  ([Effect.publish NotifyKind.down topicArn subject message], env.publishResult)

/-- `send_recovery_notification` (lines 179-194). -/
def send_recovery_notification (env : TargetEnv) (topicArn url : String) :
    List Effect × Except String Unit :=
  let subject := "RESOLVED: " ++ url ++ " is back UP"
  let message := "\n    The URL " ++ url ++ " is now back UP.\n    \n    This is an automated message from the URL Ping Service.\n    "
  ([Effect.publish NotifyKind.recovery topicArn subject message], env.publishResult)

/-- The action decided for one target, in the vocabulary of the spec. -/
inductive Action where
  | NONE
  | RAISE_ALERT
  | CLEAR_ALERT
deriving DecidableEq

/-- The branch structure of lines 49-67 of `lambda_handler`: down with no
flag raises the alert, down with a flag does nothing, up with a flag
clears the alert, up with no flag does nothing. -/
def reconcile (is_up flag_exists : Bool) : Action :=
  if !is_up then
    if !flag_exists then Action.RAISE_ALERT
    else Action.NONE
  else
    if flag_exists then Action.CLEAR_ALERT
    else Action.NONE

/-- The side effects of one branch of lines 49-67: `RAISE_ALERT` runs
`create_flag` then `send_notification`, `CLEAR_ALERT` runs `delete_flag`
then `send_recovery_notification`, `NONE` only logs.  An exception from
the first call skips the second (it propagates out of the loop body). -/
def performAction (env : TargetEnv) (bucket topicArn url flag_key : String)
    (status : Status) : Action → List Effect × Except String Unit
  | Action.NONE => ([], Except.ok ())
  | Action.RAISE_ALERT =>
    let c := create_flag env bucket flag_key
    match c.2 with
    | Except.error e => (c.1, Except.error e)
    | Except.ok _ =>
      let n := send_notification env topicArn url status.status_code status.error
      (c.1 ++ n.1, n.2)
  | Action.CLEAR_ALERT =>
    let d := delete_flag env bucket flag_key
    match d.2 with
    | Except.error e => (d.1, Except.error e)
    | Except.ok _ =>
      let n := send_recovery_notification env topicArn url
      (d.1 ++ n.1, n.2)

/-- The body of the `for url in urls` loop (lines 42-73) for one target:
probe, build the flag key `flags/<domain>.flag` (line 44), check flag
existence, take the branch, and append the result record.  A URL that is
not a string makes `get_domain_from_url` raise `AttributeError` before
any S3 call (`ping_url` swallows its own `AttributeError` internally). -/
def evalTarget (env : TargetEnv) (flagsBucket topicArn : String) (u : PyVal) :
    List Effect × Except String Record :=
  match u with
  | PyVal.str url =>
    let status := ping_url env.net url
    let flag_key := "flags/" ++ get_domain_from_url url ++ ".flag"
    let flag_exists := check_flag_exists env.headResult
    let step := performAction env flagsBucket topicArn url flag_key status
      (reconcile status.is_up flag_exists)
    match step.2 with
    | Except.error e =>
      (Effect.headObject flagsBucket flag_key :: step.1, Except.error e)
    | Except.ok _ =>
      (Effect.headObject flagsBucket flag_key :: step.1,
        Except.ok ⟨url, status, flag_exists⟩)
  | _ => ([], Except.error "AttributeError: url object has no attribute replace")

/-- The whole-run environment: the `SNS_TOPIC_ARN` environment variable
(line 20), the flags bucket name, the combined outcome of the config
`get_object` and `json.loads` (lines 35-36), and the collaborator
outcomes for each url. -/
structure RunEnv where
  sns_topic_arn : Option String
  flags_bucket : String
  configFetch : Except String PyVal
  target : String → TargetEnv

/-- Python `dict.get(key, default)` as invoked on line 37; any value that
is not a dictionary raises `AttributeError` there. -/
def pyDictGet (v : PyVal) (k : String) (default : PyVal) :
    Except String PyVal :=
  match v with
  | PyVal.dict kvs => Except.ok ((kvs.lookup k).getD default)
  | _ => Except.error "AttributeError: object has no attribute get"

/-- Python iteration for `for url in urls` (line 42): lists yield their
elements, strings yield their characters as one-character strings,
dictionaries yield their keys, and anything else raises `TypeError`. -/
def pyIter : PyVal → Except String (List PyVal)
  | PyVal.list xs => Except.ok xs
  | PyVal.str s => Except.ok (s.data.map (fun c => PyVal.str (String.mk [c])))
  | PyVal.dict kvs => Except.ok (kvs.map (fun kv => PyVal.str kv.1))
  | _ => Except.error "TypeError: object is not iterable"

/-- The string a url value indexes the per-target environment with. -/
def pyvalKey : PyVal → String
  | PyVal.str s => s
  | _ => ""

/-- The `for url in urls` loop (lines 42-73): targets are evaluated in
list order; the loop body has no exception handler, so the first failing
target stops the loop and its exception propagates to the handler of
line 83, discarding the records accumulated so far. -/
def runTargets (env : RunEnv) (arn : String) :
    List PyVal → List Effect × Except String (List Record)
  | [] => ([], Except.ok [])
  | u :: rest =>
    let step := evalTarget (env.target (pyvalKey u)) env.flags_bucket arn u
    match step.2 with
    | Except.error e => (step.1, Except.error e)
    | Except.ok rec =>
      let tail := runTargets env arn rest
      (step.1 ++ tail.1, Except.map (fun recs => rec :: recs) tail.2)

/-- The body of the `try:` block (lines 33-81): fetch and decode the
configuration, read `urls` with default `[]`, iterate, and on success
return the record list (the 200 response). -/
def handlerTry (env : RunEnv) (arn : String) :
    List Effect × Except String (List Record) :=
  match env.configFetch with
  | Except.error e => ([], Except.error e)
  | Except.ok cfg =>
    match pyDictGet cfg "urls" (PyVal.list []) with
    | Except.error e => ([], Except.error e)
    | Except.ok urlsVal =>
      match pyIter urlsVal with
      | Except.error e => ([], Except.error e)
      | Except.ok urls => runTargets env arn urls

/-- `lambda_handler` (lines 11-88): a falsy `SNS_TOPIC_ARN` (unset or the
empty string, line 22) returns 500 before any client is built or any call
is made; otherwise the `try:` body runs, a propagated exception becomes
the 500 `Error: ...` response of lines 83-88, and success becomes the 200
response with the record list. -/
def lambda_handler (env : RunEnv) :
    Int × List Effect × Except String (List Record) :=
  match env.sns_topic_arn with
  | Option.none =>
    (500, [], Except.error "SNS_TOPIC_ARN environment variable is not set")
  | Option.some arn =>
    if arn.isEmpty then
      (500, [], Except.error "SNS_TOPIC_ARN environment variable is not set")
    else
      let res := handlerTry env arn
      match res.2 with
      | Except.ok recs => (200, res.1, Except.ok recs)
      | Except.error e => (500, res.1, Except.error ("Error: " ++ e))

/-- Flag mutations are the `put_object` and `delete_object` calls. -/
def isMutation : Effect → Bool
  | Effect.putObject _ _ _ => true
  | Effect.deleteObject _ _ => true
  | _ => false

/-- Notifications are the SNS `publish` calls. -/
def isNotification : Effect → Bool
  | Effect.publish _ _ _ _ => true
  | _ => false

/-- A flag-creation call. -/
def isCreate : Effect → Bool
  | Effect.putObject _ _ _ => true
  | _ => false

/-- A flag-deletion call. -/
def isDelete : Effect → Bool
  | Effect.deleteObject _ _ => true
  | _ => false

/-- A down-alert publish. -/
def isDownNotify : Effect → Bool
  | Effect.publish NotifyKind.down _ _ _ => true
  | _ => false

/-- A recovery publish. -/
def isRecoveryNotify : Effect → Bool
  | Effect.publish NotifyKind.recovery _ _ _ => true
  | _ => false

/-- Number of flag mutations in a trace. -/
def countMutations (effs : List Effect) : Nat :=
  (effs.filter isMutation).length

/-- Number of notifications in a trace. -/
def countNotifications (effs : List Effect) : Nat :=
  (effs.filter isNotification).length

/-- `true` iff in the trace every down alert is preceded by a flag
creation and every recovery publish is preceded by a flag deletion.
`seenCreate` and `seenDelete` record what mutations occurred earlier. -/
def mutationBeforeNotify (seenCreate seenDelete : Bool) : List Effect → Bool
  | [] => true
  | e :: rest =>
    if isDownNotify e && !seenCreate then false
    else if isRecoveryNotify e && !seenDelete then false
    else mutationBeforeNotify (seenCreate || isCreate e)
      (seenDelete || isDelete e) rest

/-- The key an S3 flag-store effect addresses, if any. -/
def effectKey : Effect → Option String
  | Effect.headObject _ k => Option.some k
  | Effect.putObject _ k _ => Option.some k
  | Effect.deleteObject _ k => Option.some k
  | Effect.publish _ _ _ _ => Option.none

example : pyToInt? "Mon, 01 Jan 2024 00:00:00 GMT" = Option.none := by decide
example : pyToInt? "  512 " = Option.some 512 := by decide
example : pyToInt? "-5" = Option.some (-5) := by decide
example : pyToInt? "1_0" = Option.some 10 := by decide
example : pyToInt? "1__0" = Option.none := by decide
example : get_domain_from_url "https://a.b.com:8080/x/y" = "a.b.com_8080" := by decide
example : get_domain_from_url "bad.example.com" = "bad.example.com" := by decide

/-- A target whose collaborators all succeed, with probe outcome `probe`,
flag-check outcome `head`, and a (numeric, hence parseable) STS date
header. -/
def envWith (probe : ProbeOutcome) (head : StoreResult) : TargetEnv :=
  ⟨fun _ => probe, head, "5", Except.ok (), Except.ok (), Except.ok ()⟩

example :
    evalTarget (envWith (ProbeOutcome.success 200) StoreResult.notFound)
      "ping-flags" "arn" (PyVal.str "example.com") =
    ([Effect.headObject "ping-flags" "flags/example.com.flag"],
      Except.ok ⟨"example.com", ⟨true, Option.some 200, Option.none⟩, false⟩) := by
  rfl

example :
    (evalTarget (envWith (ProbeOutcome.httpError 500 "HTTP Error 500: Internal Server Error") StoreResult.notFound)
      "ping-flags" "arn" (PyVal.str "bad.example.com")).1.filter isCreate =
    [Effect.putObject "ping-flags" "flags/bad.example.com.flag" ⟨5, "down"⟩] := by
  rfl

theorem evalTarget_trace (env : TargetEnv) (b a url : String) :
    (evalTarget env b a (PyVal.str url)).1 =
      Effect.headObject b ("flags/" ++ get_domain_from_url url ++ ".flag") ::
        (performAction env b a url
          ("flags/" ++ get_domain_from_url url ++ ".flag")
          (ping_url env.net url)
          (reconcile (ping_url env.net url).is_up
            (check_flag_exists env.headResult))).1 := by
  simp only [evalTarget]
  split <;> rfl

theorem perform_trace_cases (env : TargetEnv) (b a url key : String)
    (status : Status) (action : Action) :
    (performAction env b a url key status action).1 = [] ∨
    (∃ body, (performAction env b a url key status action).1 =
      [Effect.putObject b key body]) ∨
    (∃ body s m, (performAction env b a url key status action).1 =
      [Effect.putObject b key body, Effect.publish NotifyKind.down a s m]) ∨
    ((performAction env b a url key status action).1 =
      [Effect.deleteObject b key]) ∨
    (∃ s m, (performAction env b a url key status action).1 =
      [Effect.deleteObject b key, Effect.publish NotifyKind.recovery a s m]) := by
  cases action with
  | NONE => left; rfl
  | RAISE_ALERT =>
    unfold performAction create_flag
    cases pyToInt? env.stsDateHeader with
    | none => left; rfl
    | some t =>
      cases env.putResult with
      | error e => right; left; exact ⟨⟨t, "down"⟩, rfl⟩
      | ok u =>
        right; right; left
        exact ⟨⟨t, "down"⟩, _, _, rfl⟩
  | CLEAR_ALERT =>
    unfold performAction delete_flag
    cases env.deleteResult with
    | error e => right; right; right; left; rfl
    | ok u =>
      right; right; right; right
      exact ⟨_, _, rfl⟩

/-- An effect is either bound to the given flag key or is an SNS publish
(which has no key). -/
def flagKeyOk (key : String) (e : Effect) : Bool :=
  match effectKey e with
  | Option.some k => k == key
  | Option.none => true

/-- C1: the action taken for a target is a pure function of the pair
`(reachable, flagExists)` and matches the table of section 4.2:
down with no flag raises the alert, down with a flag does nothing, up
with a flag clears the alert, up with no flag does nothing; moreover the
side effects of each action are only the ones the table lists (`NONE`
performs nothing, `RAISE_ALERT` only creates the flag and publishes the
down alert, `CLEAR_ALERT` only deletes the flag and publishes the
recovery message). -/
theorem reconcile_table :
    reconcile false false = Action.RAISE_ALERT ∧
    reconcile false true = Action.NONE ∧
    reconcile true true = Action.CLEAR_ALERT ∧
    reconcile true false = Action.NONE ∧
    (∀ (env : TargetEnv) (b a url key : String) (status : Status),
      (performAction env b a url key status Action.NONE).1 = []) ∧
    (∀ (env : TargetEnv) (b a url key : String) (status : Status),
      ((performAction env b a url key status Action.RAISE_ALERT).1.all
        (fun e => isCreate e || isDownNotify e)) = true) ∧
    (∀ (env : TargetEnv) (b a url key : String) (status : Status),
      ((performAction env b a url key status Action.CLEAR_ALERT).1.all
        (fun e => isDelete e || isRecoveryNotify e)) = true) := by
  refine ⟨rfl, rfl, rfl, rfl, fun env b a url key status => rfl, ?_, ?_⟩
  · intro env b a url key status
    unfold performAction create_flag
    cases pyToInt? env.stsDateHeader with
    | none => rfl
    | some t => cases env.putResult with
      | error e => rfl
      | ok u => rfl
  · intro env b a url key status
    unfold performAction delete_flag
    cases env.deleteResult with
    | error e => rfl
    | ok u => rfl

/-- C9: within one target, the flag-store mutation comes before the
matching notification: every down alert in the trace is preceded by a
flag creation, and every recovery publish is preceded by a flag
deletion. -/
theorem mutation_before_notification :
    ∀ (env : TargetEnv) (b a : String) (u : PyVal),
      mutationBeforeNotify false false (evalTarget env b a u).1 = true := by
  intro env b a u
  cases u with
  | str url =>
    rw [evalTarget_trace]
    rcases perform_trace_cases env b a url
        ("flags/" ++ get_domain_from_url url ++ ".flag")
        (ping_url env.net url)
        (reconcile (ping_url env.net url).is_up
          (check_flag_exists env.headResult)) with
      h | ⟨body, h⟩ | ⟨body, s, m, h⟩ | h | ⟨s, m, h⟩ <;> rw [h] <;> rfl
  | int n => rfl
  | boolean bb => rfl
  | null => rfl
  | list xs => rfl
  | dict kvs => rfl

/-- C7 (amended): per target per run, at most one flag mutation and at
most one notification are performed (a `NONE` action performs neither). -/
theorem at_most_one_mutation_and_notification :
    ∀ (env : TargetEnv) (b a : String) (u : PyVal),
      countMutations (evalTarget env b a u).1 ≤ 1 ∧
      countNotifications (evalTarget env b a u).1 ≤ 1 := by
  intro env b a u
  cases u with
  | str url =>
    rw [evalTarget_trace]
    rcases perform_trace_cases env b a url
        ("flags/" ++ get_domain_from_url url ++ ".flag")
        (ping_url env.net url)
        (reconcile (ping_url env.net url).is_up
          (check_flag_exists env.headResult)) with
      h | ⟨body, h⟩ | ⟨body, s, m, h⟩ | h | ⟨s, m, h⟩ <;> rw [h] <;>
      constructor <;>
      simp [countMutations, countNotifications, isMutation, isNotification,
        List.filter]
  | int n => constructor <;> simp [countMutations, countNotifications, evalTarget]
  | boolean bb => constructor <;> simp [countMutations, countNotifications, evalTarget]
  | null => constructor <;> simp [countMutations, countNotifications, evalTarget]
  | list xs => constructor <;> simp [countMutations, countNotifications, evalTarget]
  | dict kvs => constructor <;> simp [countMutations, countNotifications, evalTarget]

/-- C4 (amended): every flag-store call for a target uses the key
`flags/<TargetKey>.flag`, where the TargetKey comes from
`get_domain_from_url` (host with scheme stripped and `:` replaced by
`_`); for the target `bad.example.com` the TargetKey is
`bad.example.com` and the full key is `flags/bad.example.com.flag`, not
the bare TargetKey. -/
theorem flag_key_uses_domain :
    (∀ (env : TargetEnv) (b a url : String),
      ((evalTarget env b a (PyVal.str url)).1.all
        (flagKeyOk ("flags/" ++ get_domain_from_url url ++ ".flag"))) = true) ∧
    get_domain_from_url "bad.example.com" = "bad.example.com" ∧
    ("flags/" ++ get_domain_from_url "bad.example.com" ++ ".flag") =
      "flags/bad.example.com.flag" := by
  refine ⟨?_, rfl, rfl⟩
  intro env b a url
  rw [evalTarget_trace]
  rcases perform_trace_cases env b a url
      ("flags/" ++ get_domain_from_url url ++ ".flag")
      (ping_url env.net url)
      (reconcile (ping_url env.net url).is_up
        (check_flag_exists env.headResult)) with
    h | ⟨body, h⟩ | ⟨body, s, m, h⟩ | h | ⟨s, m, h⟩ <;> rw [h] <;>
    simp [flagKeyOk, effectKey]

/-- C6: `ping_url` is total — for every URL and every outcome of the
request it returns a status dictionary rather than raising.  A
transport-level failure (timeout, DNS, connection refused) yields
`is_up = false`, `status_code = None` and the error description; an
HTTP error response yields `is_up = false` with the server-provided
status code; a returned response yields the 2xx classification. -/
theorem ping_url_total_classification :
    ∀ (net : String → ProbeOutcome) (url : String) (code : Int) (msg : String),
      (net (normalizeUrl url) = ProbeOutcome.otherError msg →
        ping_url net url = ⟨false, Option.none, Option.some msg⟩) ∧
      (net (normalizeUrl url) = ProbeOutcome.httpError code msg →
        ping_url net url = ⟨false, Option.some code, Option.some msg⟩) ∧
      (net (normalizeUrl url) = ProbeOutcome.success code →
        ping_url net url =
          ⟨decide (200 ≤ code ∧ code < 300), Option.some code, Option.none⟩) := by
  intro net url code msg
  refine ⟨?_, ?_, ?_⟩ <;> intro h <;> unfold ping_url <;> rw [h]

/-- Witness for C6 at concrete inputs: a timeout and a 500 response
against `example.com`. -/
theorem ping_url_total_classification_witness :
    ping_url (fun _ => ProbeOutcome.otherError "urlopen error timed out")
      "example.com" =
      ⟨false, Option.none, Option.some "urlopen error timed out"⟩ ∧
    ping_url (fun _ => ProbeOutcome.httpError 500 "HTTP Error 500: Internal Server Error")
      "example.com" =
      ⟨false, Option.some 500, Option.some "HTTP Error 500: Internal Server Error"⟩ :=
  ⟨(ping_url_total_classification _ "example.com" 0 "urlopen error timed out").1 rfl,
   (ping_url_total_classification _ "example.com" 500
      "HTTP Error 500: Internal Server Error").2.1 rfl⟩

/-- A run whose `SNS_TOPIC_ARN` is unset. -/
def runEnvNoSns : RunEnv :=
  ⟨Option.none, "ping-flags", Except.ok (PyVal.dict []),
    fun _ => envWith (ProbeOutcome.success 200) StoreResult.notFound⟩

/-- C3: with the SNS topic missing, `lambda_handler` returns the 500
failure response immediately: the effect trace is empty (no flag-store
or notifier call is made), no configuration is read and no target is
probed — the result does not depend on any collaborator outcome. -/
theorem missing_sns_fails_fast :
    ∀ env : RunEnv, env.sns_topic_arn = Option.none →
      lambda_handler env =
        (500, [], Except.error "SNS_TOPIC_ARN environment variable is not set") := by
  intro env h
  unfold lambda_handler
  rw [h]

/-- Witness for C3 at a concrete run environment. -/
theorem missing_sns_fails_fast_witness :
    lambda_handler runEnvNoSns =
      (500, [], Except.error "SNS_TOPIC_ARN environment variable is not set") :=
  missing_sns_fails_fast runEnvNoSns rfl

/-- C10: `check_flag_exists` is total and returns `False` on every
storage failure, exactly as for an absent flag, so a run cannot tell the
two apart: the whole target evaluation is unchanged when a storage error
replaces an absent flag.  An unreachable target is then treated as newly
down: the raise branch runs, creating the flag and publishing the down
alert (when the timestamp parses and the calls succeed). -/
theorem flag_check_error_conflation :
    (∀ m : String, check_flag_exists (StoreResult.storeError m) = false) ∧
    check_flag_exists StoreResult.notFound = false ∧
    (∀ (net : String → ProbeOutcome) (hdr m : String)
        (pr dr br : Except String Unit) (b a : String) (u : PyVal),
      evalTarget ⟨net, StoreResult.storeError m, hdr, pr, dr, br⟩ b a u =
        evalTarget ⟨net, StoreResult.notFound, hdr, pr, dr, br⟩ b a u) ∧
    (∀ (err m hdr b a url : String) (t : Int),
      pyToInt? hdr = Option.some t →
      ((evalTarget
          ⟨fun _ => ProbeOutcome.otherError err, StoreResult.storeError m, hdr,
            Except.ok (), Except.ok (), Except.ok ()⟩
          b a (PyVal.str url)).1.filter isCreate) =
        [Effect.putObject b ("flags/" ++ get_domain_from_url url ++ ".flag")
          ⟨t, "down"⟩] ∧
      ((evalTarget
          ⟨fun _ => ProbeOutcome.otherError err, StoreResult.storeError m, hdr,
            Except.ok (), Except.ok (), Except.ok ()⟩
          b a (PyVal.str url)).1.filter isDownNotify).length = 1) := by
  refine ⟨fun m => rfl, rfl, ?_, ?_⟩
  · intro net hdr m pr dr br b a u
    cases u <;> rfl
  · intro err m hdr b a url t h
    constructor <;>
      simp [evalTarget_trace, performAction, create_flag, send_notification,
        ping_url, reconcile, check_flag_exists, h, isCreate, isDownNotify,
        List.filter]

/-- Witness for C10: a timed-out probe with a failing flag-existence
check still creates the flag and publishes the down alert. -/
theorem flag_check_error_conflation_witness :
    ((evalTarget
        ⟨fun _ => ProbeOutcome.otherError "urlopen error timed out",
          StoreResult.storeError "S3 unavailable", "5",
          Except.ok (), Except.ok (), Except.ok ()⟩
        "ping-flags" "arn:aws:sns:topic" (PyVal.str "bad.example.com")).1.filter
        isCreate) =
      [Effect.putObject "ping-flags" "flags/bad.example.com.flag" ⟨5, "down"⟩] ∧
    ((evalTarget
        ⟨fun _ => ProbeOutcome.otherError "urlopen error timed out",
          StoreResult.storeError "S3 unavailable", "5",
          Except.ok (), Except.ok (), Except.ok ()⟩
        "ping-flags" "arn:aws:sns:topic" (PyVal.str "bad.example.com")).1.filter
        isDownNotify).length = 1 :=
  flag_check_error_conflation.2.2.2 "urlopen error timed out" "S3 unavailable"
    "5" "ping-flags" "arn:aws:sns:topic" "bad.example.com" 5 rfl

/-- A run over two targets where the first target is up but its flag
deletion fails in the store; the second target is healthy. -/
def runEnvDeleteFails : RunEnv :=
  ⟨Option.some "arn:aws:sns:topic", "ping-flags",
    Except.ok (PyVal.dict
      [("urls", PyVal.list [PyVal.str "a.example.com", PyVal.str "b.example.com"])]),
    fun u =>
      if u = "a.example.com" then
        ⟨fun _ => ProbeOutcome.success 200, StoreResult.found, "5",
          Except.ok (), Except.error "S3 delete failed", Except.ok ()⟩
      else envWith (ProbeOutcome.success 200) StoreResult.notFound⟩

/-- Counterexample to C2: a flag-store failure on the first URL is not
caught per target — the run returns the overall failure status 500, no
record (and no per-target error detail) is reported, and the second URL
is never evaluated: the trace stops at the failing delete call. -/
theorem run_aborts_counterexample :
    lambda_handler runEnvDeleteFails =
      (500,
        [Effect.headObject "ping-flags" "flags/a.example.com.flag",
          Effect.deleteObject "ping-flags" "flags/a.example.com.flag"],
        Except.error "Error: S3 delete failed") ∧
    ((lambda_handler runEnvDeleteFails).2.1.filter
      (fun e => effectKey e == Option.some "flags/b.example.com.flag")) = [] :=
  ⟨rfl, rfl⟩

/-- C2 (amended): a flag-store or notifier failure while evaluating one
URL propagates out of the loop: the remaining URLs are not evaluated
(the run trace is exactly the failing target's prefix) and the run
returns the overall failure status 500 carrying only the error message,
with no per-target detail. -/
theorem target_error_aborts_run :
    (∀ (env : RunEnv) (arn : String) (u : PyVal) (rest : List PyVal) (e : String),
      (evalTarget (env.target (pyvalKey u)) env.flags_bucket arn u).2 =
        Except.error e →
      runTargets env arn (u :: rest) =
        ((evalTarget (env.target (pyvalKey u)) env.flags_bucket arn u).1,
          Except.error e)) ∧
    (∀ (env : RunEnv) (arn e : String),
      env.sns_topic_arn = Option.some arn →
      arn.isEmpty = false →
      (handlerTry env arn).2 = Except.error e →
      lambda_handler env =
        (500, (handlerTry env arn).1, Except.error ("Error: " ++ e))) := by
  constructor
  · intro env arn u rest e h
    simp only [runTargets]
    rw [h]
  · intro env arn e h1 h2 h3
    unfold lambda_handler
    rw [h1]
    dsimp only
    rw [h2]
    simp only [Bool.false_eq_true, if_false]
    rw [h3]

/-- Witness for C2 (amended) at the concrete failing run. -/
theorem target_error_aborts_run_witness :
    runTargets runEnvDeleteFails "arn:aws:sns:topic"
      [PyVal.str "a.example.com", PyVal.str "b.example.com"] =
      ([Effect.headObject "ping-flags" "flags/a.example.com.flag",
        Effect.deleteObject "ping-flags" "flags/a.example.com.flag"],
        Except.error "S3 delete failed") ∧
    lambda_handler runEnvDeleteFails =
      (500,
        [Effect.headObject "ping-flags" "flags/a.example.com.flag",
          Effect.deleteObject "ping-flags" "flags/a.example.com.flag"],
        Except.error ("Error: " ++ "S3 delete failed")) :=
  ⟨target_error_aborts_run.1 runEnvDeleteFails "arn:aws:sns:topic"
      (PyVal.str "a.example.com") [PyVal.str "b.example.com"]
      "S3 delete failed" rfl,
    target_error_aborts_run.2 runEnvDeleteFails "arn:aws:sns:topic"
      "S3 delete failed" rfl rfl rfl⟩

/-- A run whose configuration object is an (otherwise well-formed) JSON
object with no `urls` key. -/
def runEnvNoUrlsKey : RunEnv :=
  ⟨Option.some "arn:aws:sns:topic", "ping-flags", Except.ok (PyVal.dict []),
    fun _ => envWith (ProbeOutcome.success 200) StoreResult.notFound⟩

/-- Counterexample to C8: a configuration document without the `urls`
key is malformed per the spec (the only recognized shape is
`urls: []string`), yet the run does not fail: `.get('urls', [])`
defaults to the empty list and the handler returns the 200 success
response over zero targets, raising no configuration error. -/
theorem missing_urls_key_counterexample :
    lambda_handler runEnvNoUrlsKey = (200, [], Except.ok []) ∧
    (lambda_handler runEnvNoUrlsKey).1 ≠ 500 :=
  ⟨rfl, by decide⟩

/-- C8 (amended): only a configuration document that is not an object
fails the run (the `.get` attribute access raises, turning into the 500
response before any target is processed, with no flag-store or notifier
call); an object missing the `urls` key is silently treated as the
empty URL list and the run succeeds with a 200 response and no records. -/
theorem config_shape_behavior :
    (∀ (env : RunEnv) (arn : String) (v : PyVal),
      env.sns_topic_arn = Option.some arn →
      arn.isEmpty = false →
      env.configFetch = Except.ok v →
      v.isDict = false →
      lambda_handler env =
        (500, [],
          Except.error "Error: AttributeError: object has no attribute get")) ∧
    (∀ (env : RunEnv) (arn : String) (kvs : List (String × PyVal)),
      env.sns_topic_arn = Option.some arn →
      arn.isEmpty = false →
      env.configFetch = Except.ok (PyVal.dict kvs) →
      kvs.lookup "urls" = Option.none →
      lambda_handler env = (200, [], Except.ok [])) := by
  constructor
  · intro env arn v h1 h2 h3 h4
    unfold lambda_handler
    rw [h1]
    dsimp only
    rw [h2]
    simp only [Bool.false_eq_true, if_false]
    unfold handlerTry
    rw [h3]
    cases v with
    | dict kvs => simp [PyVal.isDict] at h4
    | str s => rfl
    | int n => rfl
    | boolean bb => rfl
    | null => rfl
    | list xs => rfl
  · intro env arn kvs h1 h2 h3 h4
    unfold lambda_handler
    rw [h1]
    dsimp only
    rw [h2]
    simp only [Bool.false_eq_true, if_false]
    unfold handlerTry
    rw [h3]
    dsimp only [pyDictGet]
    rw [h4]
    rfl

/-- Witness for C8 (amended): a list-shaped configuration document fails
with 500 and no effects; an object without `urls` yields the empty
success run. -/
theorem config_shape_behavior_witness :
    lambda_handler
      ⟨Option.some "arn:aws:sns:topic", "ping-flags",
        Except.ok (PyVal.list [PyVal.str "a.example.com"]),
        fun _ => envWith (ProbeOutcome.success 200) StoreResult.notFound⟩ =
      (500, [], Except.error "Error: AttributeError: object has no attribute get") ∧
    lambda_handler runEnvNoUrlsKey = (200, [], Except.ok []) :=
  ⟨config_shape_behavior.1
      ⟨Option.some "arn:aws:sns:topic", "ping-flags",
        Except.ok (PyVal.list [PyVal.str "a.example.com"]),
        fun _ => envWith (ProbeOutcome.success 200) StoreResult.notFound⟩
      "arn:aws:sns:topic" (PyVal.list [PyVal.str "a.example.com"])
      rfl rfl rfl rfl,
    config_shape_behavior.2 runEnvNoUrlsKey "arn:aws:sns:topic" [] rfl rfl rfl rfl⟩

/-- The environment for an unreachable target with no flag whose STS
response carries a realistic HTTP `date` header. -/
def envRealisticDate : TargetEnv :=
  ⟨fun _ => ProbeOutcome.otherError "urlopen error timed out",
    StoreResult.notFound, "Mon, 01 Jan 2024 00:00:00 GMT",
    Except.ok (), Except.ok (), Except.ok ()⟩

/-- C5 (code bug, evaluated at the failing input): on an up-to-down
transition the code builds the flag timestamp as `int(...)` of the
`date` HTTP header of an STS response.  That header is an IMF-fixdate
string, never a decimal literal, so `int()` raises `ValueError`: flag
creation never succeeds, `put_object` is not even called, and the run
aborts — contradicting the documented `DownFlag` body
`(timestamp : int, status : "down")`. -/
theorem create_flag_timestamp_bug :
    pyToInt? "Mon, 01 Jan 2024 00:00:00 GMT" = Option.none ∧
    create_flag envRealisticDate "ping-flags" "flags/bad.example.com.flag" =
      ([], Except.error
        "invalid literal for int() with base 10: Mon, 01 Jan 2024 00:00:00 GMT") ∧
    (evalTarget envRealisticDate "ping-flags" "arn:aws:sns:topic"
        (PyVal.str "bad.example.com")).2 =
      Except.error
        "invalid literal for int() with base 10: Mon, 01 Jan 2024 00:00:00 GMT" ∧
    countMutations
      (evalTarget envRealisticDate "ping-flags" "arn:aws:sns:topic"
        (PyVal.str "bad.example.com")).1 = 0 :=
  ⟨rfl, rfl, rfl, rfl⟩

/-- Counterexample to C7: a healthy target with no flag undergoes zero
flag mutations in its run, not exactly one. -/
theorem flag_mutation_count_counterexample :
    countMutations
      (evalTarget (envWith (ProbeOutcome.success 200) StoreResult.notFound)
        "ping-flags" "arn:aws:sns:topic" (PyVal.str "example.com")).1 = 0 ∧
    ¬ countMutations
      (evalTarget (envWith (ProbeOutcome.success 200) StoreResult.notFound)
        "ping-flags" "arn:aws:sns:topic" (PyVal.str "example.com")).1 = 1 :=
  ⟨rfl, by decide⟩

/-- Counterexample to C4: for the unreachable target `bad.example.com`
with no flag, the flag is created with the key
`flags/bad.example.com.flag`; no flag-store call uses the bare TargetKey
`bad.example.com` that the claim names. -/
theorem flag_key_counterexample :
    ((evalTarget
        (envWith (ProbeOutcome.httpError 500 "HTTP Error 500: Internal Server Error")
          StoreResult.notFound)
        "ping-flags" "arn:aws:sns:topic" (PyVal.str "bad.example.com")).1.filter
        isCreate) =
      [Effect.putObject "ping-flags" "flags/bad.example.com.flag" ⟨5, "down"⟩] ∧
    ((evalTarget
        (envWith (ProbeOutcome.httpError 500 "HTTP Error 500: Internal Server Error")
          StoreResult.notFound)
        "ping-flags" "arn:aws:sns:topic" (PyVal.str "bad.example.com")).1.filter
        (fun e => effectKey e == Option.some "bad.example.com")) = [] :=
  ⟨rfl, rfl⟩
